import Mathlib

/-!
# Verification of the WhatsApp webhook bot (src/app.py)

Shallow embedding of the single-file Flask application. The program's
global mutable state (the `threads` dict, line 46 of app.py) is passed
explicitly; outbound HTTP calls are modelled by an environment record
giving each remote endpoint's observable behaviour, and every embedded
function is instrumented to report how many calls of each kind it issued,
so that the spec's call-count properties can be stated and proved.
-/

set_option autoImplicit false

namespace WhatsAppBot

/-- The global `threads : Dict[str, str]` mapping (app.py line 46),
embedded as an association list: insertion conses at the front, so a
later write for the same key shadows the earlier one, matching Python
dict assignment. -/
abbrev Threads := List (String × String)

/-- `user_id in threads` / `threads[user_id]`: first entry whose key
matches. -/
def lookupThread (threads : Threads) (u : String) : Option String :=
  (threads.find? (fun p => p.1 == u)).map (fun p => p.2)

/-- An exception raised by a remote HTTP call (network error or a
non-2xx response surfaced by `raise_for_status`). -/
structure RemoteError where
  msg : String
  deriving Repr, DecidableEq

/-- `OpenAIService.get_or_create_thread` (app.py lines 97-118),
instrumented. `create` is the observable outcome of the
conversation-create call (`POST /threads`): `.ok tid` when the remote
call succeeds and returns handle `tid`, `.error e` when it raises.
Returns (result as the caller sees it, the `threads` map after the call,
number of conversation-create HTTP calls issued). The source returns
the stored handle with no remote call when `user_id` is already present;
otherwise it issues one create call, stores the returned handle on
success, and re-raises on failure (storing nothing). -/
def get_or_create_thread (create : Except RemoteError String)
    (threads : Threads) (user_id : String) :
    Except RemoteError String × Threads × Nat :=
  match lookupThread threads user_id with
  | some tid => (Except.ok tid, threads, 0)
  | none =>
    match create with
    | Except.ok tid => (Except.ok tid, (user_id, tid) :: threads, 1)
    | Except.error e => (Except.error e, threads, 1)

/-- One message object from the OpenAI list-messages response
(`messages_response.json()["data"]` item); `content` holds the text
values of its content items, so `content[0]` in the source is
`content.head?` here (an out-of-range index raises, which the source's
blanket `except` converts to `None`, exactly `head? = none`). -/
structure OAMessage where
  content : List String
  deriving Repr, DecidableEq

/-- The `if messages: return messages[0]["content"][0]["text"]["value"]`
extraction at app.py lines 167-168: `none` when the list is empty or the
first item has no content item. -/
def extractReply (messages : List OAMessage) : Option String :=
  match messages with
  | [] => none
  | m :: _ => m.content.head?

/-- `max_attempts = 10` (app.py line 150). -/
def max_attempts : Nat := 10

/-- The polling loop body of `run_assistant` (app.py lines 151-173).
`statusAt k` is the status string returned by the k-th job-status check
(0-indexed); `msgs` is the list-messages response fetched on completion.
`attempt` is the current loop index and `fuel` the remaining attempts.
Returns (the value `run_assistant` produces, number of status checks
issued). A `completed` status fetches the messages and stops; a
`failed`/`cancelled`/`expired` status breaks out; anything else
continues to the next attempt; running out of attempts yields `none`. -/
def pollRun (statusAt : Nat → String) (msgs : List OAMessage) :
    Nat → Nat → Option String × Nat
  | _, 0 => (none, 0)
  | attempt, fuel + 1 =>
    let status := statusAt attempt
    if status = "completed" then
      (extractReply msgs, 1)
    else if status = "failed" ∨ status = "cancelled" ∨ status = "expired" then
      (none, 1)
    else
      let r := pollRun statusAt msgs (attempt + 1) fuel
      (r.1, r.2 + 1)

/-- `OpenAIService.run_assistant` (app.py lines 136-179), instrumented.
`startRun` is the outcome of the job-start call (`POST .../runs`): when
it raises, the blanket `except` returns `None` before any status check.
Returns (the optional reply text, number of status checks issued). -/
def run_assistant (startRun : Except RemoteError String)
    (statusAt : Nat → String) (msgs : List OAMessage) :
    Option String × Nat :=
  match startRun with
  | Except.error _ => (none, 0)
  | Except.ok _ => pollRun statusAt msgs 0 max_attempts

/-- The `profile` object of a contact entry; `name` is absent when the
key is missing (`contact.get('profile', {}).get('name', 'Unknown')`). -/
structure WAProfile where
  name : Option String
  deriving Repr, DecidableEq

/-- One entry of the `contacts` list of a webhook change value. -/
structure WAContact where
  wa_id : Option String
  profile : Option WAProfile
  deriving Repr, DecidableEq

/-- The `text` object of an inbound message
(`message.get('text', {}).get('body', '')`). -/
structure TextField where
  body : Option String
  deriving Repr, DecidableEq

/-- One inbound message dict as `process_message` reads it. `sender`
is the `'from'` key (a Lean keyword, hence the rename); `none` models
an absent key. -/
structure WAMessage where
  sender : Option String
  text : Option TextField
  deriving Repr, DecidableEq

/-- The contact-name scan of `process_message` (app.py lines 239-243): a
linear walk over `contacts` that stops at the first entry whose `wa_id`
equals the sender id, defaulting to `"Unknown"` when no entry matches or
the matching entry carries no profile name. -/
def getContactName (contacts : List WAContact) (phone_id : String) : String :=
  match contacts with
  | [] => "Unknown"
  | c :: rest =>
    if c.wa_id = some phone_id then
      ((c.profile.bind (fun pr => pr.name)).getD "Unknown")
    else
      getContactName rest phone_id

/-- Observable behaviour of the remote services during one
`process_message` invocation: the outcome of each outbound call the
orchestrator may issue. `create` feeds `get_or_create_thread`;
`appendOk` is the boolean `add_message_to_thread` returns; `startRun`,
`statusAt` and `replyMessages` feed `run_assistant`; `sendOk` is the
boolean `WhatsAppService.send_message` returns. -/
structure RemoteEnv where
  create : Except RemoteError String
  appendOk : Bool
  startRun : Except RemoteError String
  statusAt : Nat → String
  replyMessages : List OAMessage
  sendOk : Bool

/-- Instrumentation record for one `process_message` call: how many
calls of each kind it issued, what it appended and sent, and the
`threads` map when it returned. -/
structure PMTrace where
  contactName : Option String
  resolveCalls : Nat
  createCalls : Nat
  appendCalls : Nat
  appendedText : Option String
  runStarts : Nat
  statusChecks : Nat
  sendCalls : Nat
  sentReply : Option (String × String)
  sendSucceeded : Option Bool
  threadsAfter : Threads
  deriving Repr, DecidableEq

/-- `process_message` (app.py lines 228-272), instrumented. The source
returns early when `phone_id` is falsy (absent or the empty string);
its own blanket `except` catches the exception `get_or_create_thread`
re-raises, so a create failure aborts the call after the one failed
create; a `False` from `add_message_to_thread` aborts before the job
start; a `None` from `run_assistant` aborts before the WhatsApp send. -/
def process_message (env : RemoteEnv) (threads : Threads)
    (message : WAMessage) (contacts : List WAContact) : PMTrace :=
  let message_text : String :=
    match message.text with
    | none => ""
    | some t => t.body.getD ""
  match message.sender with
  | none =>
    { contactName := none, resolveCalls := 0, createCalls := 0,
      appendCalls := 0, appendedText := none, runStarts := 0,
      statusChecks := 0, sendCalls := 0, sentReply := none,
      sendSucceeded := none, threadsAfter := threads }
  | some phone_id =>
    if phone_id = "" then
      { contactName := none, resolveCalls := 0, createCalls := 0,
        appendCalls := 0, appendedText := none, runStarts := 0,
        statusChecks := 0, sendCalls := 0, sentReply := none,
        sendSucceeded := none, threadsAfter := threads }
    else
      let contact_name := getContactName contacts phone_id
      let r := get_or_create_thread env.create threads phone_id
      match r.1 with
      | Except.error _ =>
        { contactName := some contact_name, resolveCalls := 1,
          createCalls := r.2.2, appendCalls := 0, appendedText := none,
          runStarts := 0, statusChecks := 0, sendCalls := 0,
          sentReply := none, sendSucceeded := none,
          threadsAfter := r.2.1 }
      | Except.ok _ =>
        if env.appendOk = false then
          { contactName := some contact_name, resolveCalls := 1,
            createCalls := r.2.2, appendCalls := 1,
            appendedText := some message_text, runStarts := 0,
            statusChecks := 0, sendCalls := 0, sentReply := none,
            sendSucceeded := none, threadsAfter := r.2.1 }
        else
          let ai := run_assistant env.startRun env.statusAt env.replyMessages
          match ai.1 with
          | none =>
            { contactName := some contact_name, resolveCalls := 1,
              createCalls := r.2.2, appendCalls := 1,
              appendedText := some message_text, runStarts := 1,
              statusChecks := ai.2, sendCalls := 0, sentReply := none,
              sendSucceeded := none, threadsAfter := r.2.1 }
          | some reply =>
            { contactName := some contact_name, resolveCalls := 1,
              createCalls := r.2.2, appendCalls := 1,
              appendedText := some message_text, runStarts := 1,
              statusChecks := ai.2, sendCalls := 1,
              sentReply := some (phone_id, reply),
              sendSucceeded := some env.sendOk, threadsAfter := r.2.1 }

/-- `verify_webhook` (app.py lines 185-196). `cfgToken` is
`Config.VERIFY_TOKEN`; `mode` and `token` are the `hub.mode` and
`hub.verify_token` query parameters (`none` when absent); `challenge`
is the `hub.challenge` value. Returns (body, HTTP status): Flask turns
the bare `return challenge` into a 200 response whose body is the
challenge string, and `('Forbidden', 403)` otherwise. -/
def verify_webhook (cfgToken : String) (mode token : Option String)
    (challenge : String) : String × Nat :=
  if mode = some "subscribe" ∧ token = some cfgToken then
    (challenge, 200)
  else
    ("Forbidden", 403)

/-- The `value` object of a webhook change: `statuses` records whether
the `'statuses'` key is present (the source only tests membership),
`messages` and `contacts` are the corresponding lists (defaulting to
empty when absent). -/
structure ChangeValue where
  statuses : Bool
  messages : List WAMessage
  contacts : List WAContact
  deriving Repr, DecidableEq

/-- One element of an entry's `changes` list; `value = none` models an
absent `'value'` key, which `change.get('value', {})` turns into an
empty dict. -/
structure WebhookChange where
  field : Option String
  value : Option ChangeValue
  deriving Repr, DecidableEq

/-- One element of the payload's `entry` list. -/
structure WebhookEntry where
  changes : List WebhookChange
  deriving Repr, DecidableEq

/-- A parsed JSON webhook body as `handle_webhook` reads it: the
top-level `'object'` discriminator (`none` when the key is absent) and
the `'entry'` list (`data.get('entry', [])`). -/
structure WebhookPayload where
  object : Option String
  entry : List WebhookEntry
  deriving Repr, DecidableEq

/-- `change.get('value', {})`: an absent value key behaves as an empty
dict, i.e. no statuses key, no messages, no contacts. -/
def changeValue (c : WebhookChange) : ChangeValue :=
  c.value.getD ⟨false, [], []⟩

/-- The inner `for message in value.get('messages', [])` loop of
`handle_webhook` (app.py lines 219-220): runs `process_message` on each
message in order, threading the global `threads` map through, and
records the (message, contacts) arguments of each invocation together
with its trace. -/
def processMessages (env : RemoteEnv) (threads : Threads)
    (messages : List WAMessage) (contacts : List WAContact) :
    List (WAMessage × List WAContact) × List PMTrace × Threads :=
  match messages with
  | [] => ([], [], threads)
  | m :: rest =>
    let t := process_message env threads m contacts
    let r := processMessages env t.threadsAfter rest contacts
    ((m, contacts) :: r.1, t :: r.2.1, r.2.2)

/-- The body of the `for change in entry.get('changes', [])` loop
(app.py lines 210-220): a change is inspected only when its `field` is
`'messages'`; a value carrying a `'statuses'` key is skipped; otherwise
every message of the value is processed. -/
def processChange (env : RemoteEnv) (threads : Threads)
    (c : WebhookChange) :
    List (WAMessage × List WAContact) × List PMTrace × Threads :=
  if c.field = some "messages" then
    let v := changeValue c
    if v.statuses then ([], [], threads)
    else processMessages env threads v.messages v.contacts
  else ([], [], threads)

/-- The `for change in entry.get('changes', [])` loop. -/
def processChanges (env : RemoteEnv) (threads : Threads) :
    List WebhookChange →
    List (WAMessage × List WAContact) × List PMTrace × Threads
  | [] => ([], [], threads)
  | c :: rest =>
    let r := processChange env threads c
    let r2 := processChanges env r.2.2 rest
    (r.1 ++ r2.1, r.2.1 ++ r2.2.1, r2.2.2)

/-- The `for entry in data.get('entry', [])` loop. -/
def processEntries (env : RemoteEnv) (threads : Threads) :
    List WebhookEntry →
    List (WAMessage × List WAContact) × List PMTrace × Threads
  | [] => ([], [], threads)
  | e :: rest =>
    let r := processChanges env threads e.changes
    let r2 := processEntries env r.2.2 rest
    (r.1 ++ r2.1, r.2.1 ++ r2.2.1, r2.2.2)

/-- Result of one `handle_webhook` invocation: the HTTP response, the
(message, contacts) pairs handed to `process_message` in order, the
trace of each of those calls, and the final `threads` map. -/
structure HWResult where
  response : String × Nat
  handed : List (WAMessage × List WAContact)
  traces : List PMTrace
  threadsAfter : Threads

/-- `handle_webhook` (app.py lines 198-226), instrumented. `data` is
the outcome of `request.get_json()`: `.error ()` when reading the body
raises (the top-level `except` then still answers `('OK', 200)`),
`.ok none` when it yields a falsy value (`None` or an empty object),
`.ok (some d)` when it yields a JSON object. A payload whose `'object'`
field is absent or differs from `'whatsapp_business_account'` is
acknowledged without touching any message. -/
def handle_webhook (env : RemoteEnv) (threads : Threads)
    (data : Except Unit (Option WebhookPayload)) : HWResult :=
  match data with
  | Except.error _ =>
    { response := ("OK", 200), handed := [], traces := [],
      threadsAfter := threads }
  | Except.ok none =>
    { response := ("OK", 200), handed := [], traces := [],
      threadsAfter := threads }
  | Except.ok (some d) =>
    if d.object = some "whatsapp_business_account" then
      let r := processEntries env threads d.entry
      { response := ("OK", 200), handed := r.1, traces := r.2.1,
        threadsAfter := r.2.2 }
    else
      { response := ("OK", 200), handed := [], traces := [],
        threadsAfter := threads }

/-- Modelled from the spec: the messages one change contributes to the
Orchestrator — nothing unless the change's field is `messages`; nothing
when it carries a status update; otherwise each of its messages paired
with its contacts list. -/
def handedOfChange (c : WebhookChange) :
    List (WAMessage × List WAContact) :=
  if c.field = some "messages" ∧ (changeValue c).statuses = false then
    (changeValue c).messages.map (fun m => (m, (changeValue c).contacts))
  else
    []

/-- Modelled from the spec: the declarative description of which
messages an accepted delivery notification hands to the Orchestrator —
"walks nested delivery entries; status-update entries are logged and
skipped; message entries are handed individually", each message paired
with its change's contacts list. Stated independently of the loop
embedding so that `handle_webhook`'s walk can be proved to realise
it. -/
def handedMessages (d : WebhookPayload) :
    List (WAMessage × List WAContact) :=
  d.entry.flatMap fun e => e.changes.flatMap handedOfChange

/-! ## Concrete fixtures used by the witnesses -/

/-- Status sequence `running, running, completed, completed, ...`. -/
def c3Status : Nat → String :=
  fun k => if k < 2 then "running" else "completed"

/-- A fully successful remote environment. -/
def wEnv : RemoteEnv :=
  { create := Except.ok "th_1", appendOk := true,
    startRun := Except.ok "run_1", statusAt := fun _ => "completed",
    replyMessages := [{ content := ["Hi there"] }], sendOk := true }

/-- The same environment with a failing message append. -/
def wEnvNoAppend : RemoteEnv :=
  { wEnv with appendOk := false }

/-- A text message from sender 111. -/
def wMsg : WAMessage :=
  { sender := some "111", text := some { body := some "Hello" } }

/-- A text-less (e.g. media) message from sender 222. -/
def wMsg2 : WAMessage :=
  { sender := some "222", text := none }

/-- A contact entry for sender 111. -/
def wContact : WAContact :=
  { wa_id := some "111", profile := some { name := some "Alice" } }

/-- A webhook payload exercising every walk case: a change with two
messages, a status-update change, a change of another field, and a
second entry. -/
def wPayload : WebhookPayload :=
  { object := some "whatsapp_business_account",
    entry :=
      [ { changes :=
            [ { field := some "messages",
                value := some { statuses := false,
                                messages := [wMsg, wMsg2],
                                contacts := [wContact] } },
              { field := some "messages",
                value := some { statuses := true,
                                messages := [wMsg],
                                contacts := [] } },
              { field := some "contacts", value := none } ] },
        { changes :=
            [ { field := some "messages",
                value := some { statuses := false,
                                messages := [wMsg2],
                                contacts := [] } } ] } ] }

/-! ## Helper lemmas -/

/-- Lookup in a map extended at the front. -/
theorem lookupThread_cons (u tid k : String) (threads : Threads) :
    lookupThread ((u, tid) :: threads) k =
      if u = k then some tid else lookupThread threads k := by
  by_cases h : u = k <;> simp [lookupThread, List.find?_cons, h]

/-- A stored entry survives any `get_or_create_thread` call. -/
theorem goc_preserves (c : Except RemoteError String) (threads : Threads)
    (u k v : String) (h : lookupThread threads k = some v) :
    lookupThread (get_or_create_thread c threads u).2.1 k = some v := by
  unfold get_or_create_thread
  cases hu : lookupThread threads u with
  | some tid => simpa using h
  | none =>
    cases c with
    | error e => simpa using h
    | ok tid =>
      simp only
      rw [lookupThread_cons]
      split
      · next heq => rw [heq] at hu; rw [hu] at h; exact absurd h (by simp)
      · exact h

/-- A stored entry survives any `process_message` call. -/
theorem pm_preserves (env : RemoteEnv) (threads : Threads) (m : WAMessage)
    (cs : List WAContact) (k v : String)
    (h : lookupThread threads k = some v) :
    lookupThread (process_message env threads m cs).threadsAfter k = some v := by
  unfold process_message
  dsimp only
  repeat' split
  all_goals first
    | exact h
    | exact goc_preserves _ _ _ _ _ h

/-- A stored entry survives the inner message loop. -/
theorem processMessages_preserves (env : RemoteEnv) (threads : Threads)
    (messages : List WAMessage) (cs : List WAContact) (k v : String)
    (h : lookupThread threads k = some v) :
    lookupThread (processMessages env threads messages cs).2.2 k = some v := by
  induction messages generalizing threads with
  | nil => exact h
  | cons m rest ih =>
    exact ih (process_message env threads m cs).threadsAfter
      (pm_preserves env threads m cs k v h)

/-- A stored entry survives one change. -/
theorem processChange_preserves (env : RemoteEnv) (threads : Threads)
    (c : WebhookChange) (k v : String)
    (h : lookupThread threads k = some v) :
    lookupThread (processChange env threads c).2.2 k = some v := by
  unfold processChange
  dsimp only
  repeat' split
  all_goals first
    | exact h
    | exact processMessages_preserves _ _ _ _ _ _ h

/-- A stored entry survives the change loop. -/
theorem processChanges_preserves (env : RemoteEnv) (threads : Threads)
    (cs : List WebhookChange) (k v : String)
    (h : lookupThread threads k = some v) :
    lookupThread (processChanges env threads cs).2.2 k = some v := by
  induction cs generalizing threads with
  | nil => exact h
  | cons c rest ih =>
    exact ih (processChange env threads c).2.2
      (processChange_preserves env threads c k v h)

/-- A stored entry survives the entry loop. -/
theorem processEntries_preserves (env : RemoteEnv) (threads : Threads)
    (es : List WebhookEntry) (k v : String)
    (h : lookupThread threads k = some v) :
    lookupThread (processEntries env threads es).2.2 k = some v := by
  induction es generalizing threads with
  | nil => exact h
  | cons e rest ih =>
    exact ih (processChanges env threads e.changes).2.2
      (processChanges_preserves env threads e.changes k v h)

/-- A stored entry survives a whole `handle_webhook` call. -/
theorem hw_preserves (env : RemoteEnv) (threads : Threads)
    (data : Except Unit (Option WebhookPayload)) (k v : String)
    (h : lookupThread threads k = some v) :
    lookupThread (handle_webhook env threads data).threadsAfter k = some v := by
  unfold handle_webhook
  split
  · exact h
  · exact h
  · split
    · exact processEntries_preserves _ _ _ _ _ h
    · exact h

/-- The polling loop never issues more status checks than it has fuel. -/
theorem pollRun_checks_le (s : Nat → String) (msgs : List OAMessage)
    (attempt fuel : Nat) : (pollRun s msgs attempt fuel).2 ≤ fuel := by
  induction fuel generalizing attempt with
  | zero => simp [pollRun]
  | succ f ih =>
    unfold pollRun
    dsimp only
    split
    · dsimp only; omega
    · split
      · dsimp only; omega
      · have := ih (attempt + 1)
        dsimp only
        omega

/-- A status that keeps the loop going: one check, then the next
attempt. -/
theorem pollRun_step_continue (s : Nat → String) (msgs : List OAMessage)
    (attempt fuel : Nat) (h : s attempt = "running") :
    pollRun s msgs attempt (fuel + 1)
      = ((pollRun s msgs (attempt + 1) fuel).1,
         (pollRun s msgs (attempt + 1) fuel).2 + 1) := by
  conv_lhs => unfold pollRun
  dsimp only
  rw [h, if_neg (by decide), if_neg (by decide)]

/-- A `completed` status stops the loop after the one check that saw
it. -/
theorem pollRun_step_completed (s : Nat → String) (msgs : List OAMessage)
    (attempt fuel : Nat) (h : s attempt = "completed") :
    pollRun s msgs attempt (fuel + 1) = (extractReply msgs, 1) := by
  unfold pollRun
  dsimp only
  rw [h, if_pos rfl]

/-- A status sequence stuck on `running` exhausts the whole fuel and
yields nothing. -/
theorem pollRun_running (s : Nat → String) (msgs : List OAMessage)
    (hs : ∀ k, s k = "running") (attempt fuel : Nat) :
    pollRun s msgs attempt fuel = (none, fuel) := by
  induction fuel generalizing attempt with
  | zero => rfl
  | succ f ih =>
    rw [pollRun_step_continue s msgs attempt f (hs attempt), ih (attempt + 1)]

/-- The poll result depends only on the statuses of the attempts the
fuel allows: the loop never consults a later one. -/
theorem pollRun_ext (s1 s2 : Nat → String) (msgs : List OAMessage)
    (attempt fuel : Nat)
    (hs : ∀ k, k < fuel → s1 (attempt + k) = s2 (attempt + k)) :
    pollRun s1 msgs attempt fuel = pollRun s2 msgs attempt fuel := by
  induction fuel generalizing attempt with
  | zero => rfl
  | succ f ih =>
    have h0 : s1 attempt = s2 attempt := by
      have := hs 0 (Nat.succ_pos f)
      simpa using this
    have hrec : pollRun s1 msgs (attempt + 1) f
        = pollRun s2 msgs (attempt + 1) f := by
      apply ih
      intro k hk
      have he : attempt + 1 + k = attempt + (k + 1) := by omega
      rw [he]
      exact hs (k + 1) (by omega)
    unfold pollRun
    dsimp only
    rw [h0, hrec]

/-- The message loop hands every message of its list, in order, each
paired with the change's contacts. -/
theorem processMessages_handed (env : RemoteEnv) (threads : Threads)
    (messages : List WAMessage) (cs : List WAContact) :
    (processMessages env threads messages cs).1
      = messages.map (fun m => (m, cs)) := by
  induction messages generalizing threads with
  | nil => rfl
  | cons m rest ih =>
    simp only [processMessages, List.map_cons]
    rw [ih]

/-- One change hands exactly what the spec-side description says it
does. -/
theorem processChange_handed (env : RemoteEnv) (threads : Threads)
    (c : WebhookChange) :
    (processChange env threads c).1 = handedOfChange c := by
  by_cases hf : c.field = some "messages"
  · by_cases hs : (changeValue c).statuses = true
    · simp [processChange, handedOfChange, hf, hs]
    · simp only [Bool.not_eq_true] at hs
      simp [processChange, handedOfChange, hf, hs, processMessages_handed]
  · simp [processChange, handedOfChange, hf]

/-- The change loop hands the concatenation of its changes'
contributions. -/
theorem processChanges_handed (env : RemoteEnv) (threads : Threads)
    (cs : List WebhookChange) :
    (processChanges env threads cs).1 = cs.flatMap handedOfChange := by
  induction cs generalizing threads with
  | nil => rfl
  | cons c rest ih =>
    simp only [processChanges, List.flatMap_cons]
    rw [processChange_handed, ih]

/-- The entry loop hands the concatenation over all entries. -/
theorem processEntries_handed (env : RemoteEnv) (threads : Threads)
    (es : List WebhookEntry) :
    (processEntries env threads es).1
      = es.flatMap (fun e => e.changes.flatMap handedOfChange) := by
  induction es generalizing threads with
  | nil => rfl
  | cons e rest ih =>
    simp only [processEntries, List.flatMap_cons]
    rw [processChanges_handed, ih]

/-! ## Claims -/

/-- C1: for every `user_id`, the first `get_or_create_thread` call
issues exactly one conversation-create call and stores the returned
handle; every subsequent call for the same `user_id` issues zero create
calls and returns the same stored handle; and no operation of the
program (`get_or_create_thread`, `process_message`, `handle_webhook`)
ever overwrites or removes a stored entry. -/
theorem C1_thread_directory (threads : Threads) (u : String) :
    (∀ c h, lookupThread threads u = some h →
        get_or_create_thread c threads u = (Except.ok h, threads, 0)) ∧
    (∀ tid, lookupThread threads u = none →
        get_or_create_thread (Except.ok tid) threads u
            = (Except.ok tid, (u, tid) :: threads, 1) ∧
        lookupThread ((u, tid) :: threads) u = some tid ∧
        ∀ c', get_or_create_thread c' ((u, tid) :: threads) u
            = (Except.ok tid, (u, tid) :: threads, 0)) ∧
    (∀ c k v, lookupThread threads k = some v →
        lookupThread (get_or_create_thread c threads u).2.1 k = some v) ∧
    (∀ env m cs k v, lookupThread threads k = some v →
        lookupThread (process_message env threads m cs).threadsAfter k
          = some v) ∧
    (∀ env dt k v, lookupThread threads k = some v →
        lookupThread (handle_webhook env threads dt).threadsAfter k
          = some v) := by
  refine ⟨?_, ?_, ?_, ?_, ?_⟩
  · intro c h hh
    unfold get_or_create_thread
    rw [hh]
  · intro tid hnone
    have hstored : lookupThread ((u, tid) :: threads) u = some tid := by
      rw [lookupThread_cons, if_pos rfl]
    refine ⟨?_, hstored, ?_⟩
    · unfold get_or_create_thread
      rw [hnone]
    · intro c'
      unfold get_or_create_thread
      rw [hstored]
  · intro c k v h
    exact goc_preserves c threads u k v h
  · intro env m cs k v h
    exact pm_preserves env threads m cs k v h
  · intro env dt k v h
    exact hw_preserves env threads dt k v h

/-- Witness for C1: on an empty directory, the first resolve for
`"user1"` issues one create and stores the handle; the second resolve
for `"user1"` issues zero creates and returns the stored handle even
though the remote create would now fail. -/
theorem C1_thread_directory_witness :
    get_or_create_thread (Except.ok "th_1") [] "user1"
        = (Except.ok "th_1", [("user1", "th_1")], 1) ∧
    get_or_create_thread (Except.error ⟨"boom"⟩) [("user1", "th_1")] "user1"
        = (Except.ok "th_1", [("user1", "th_1")], 0) :=
  ⟨((C1_thread_directory [] "user1").2.1 "th_1" rfl).1,
   ((C1_thread_directory [] "user1").2.1 "th_1" rfl).2.2 (Except.error ⟨"boom"⟩)⟩

/-- C2: `run_assistant` never issues more than `max_attempts = 10`
status checks; on a started run whose status never leaves `running` it
returns no result after exactly 10 checks; and its outcome only depends
on the first 10 statuses of the sequence, so an 11th check is never
consulted. -/
theorem C2_polling_budget (startRun : Except RemoteError String)
    (statusAt : Nat → String) (msgs : List OAMessage) :
    (run_assistant startRun statusAt msgs).2 ≤ max_attempts ∧
    (∀ rid, startRun = Except.ok rid → (∀ k, statusAt k = "running") →
        run_assistant startRun statusAt msgs = (none, 10)) ∧
    (∀ s2, (∀ k, k < max_attempts → statusAt k = s2 k) →
        run_assistant startRun statusAt msgs
          = run_assistant startRun s2 msgs) := by
  refine ⟨?_, ?_, ?_⟩
  · cases startRun with
    | error e => simp [run_assistant, max_attempts]
    | ok rid =>
      simpa [run_assistant] using pollRun_checks_le statusAt msgs 0 max_attempts
  · intro rid hrid hs
    subst hrid
    show pollRun statusAt msgs 0 max_attempts = (none, 10)
    exact pollRun_running statusAt msgs hs 0 max_attempts
  · intro s2 hs
    cases startRun with
    | error e => rfl
    | ok rid =>
      show pollRun statusAt msgs 0 max_attempts
          = pollRun s2 msgs 0 max_attempts
      apply pollRun_ext
      intro k hk
      simpa using hs k hk

/-- Witness for C2: a concrete run stuck on `running` issues exactly 10
checks and returns nothing. -/
theorem C2_polling_budget_witness :
    (run_assistant (Except.ok "run_1") (fun _ => "running") []).2
        ≤ max_attempts ∧
    run_assistant (Except.ok "run_1") (fun _ => "running") []
        = (none, 10) :=
  ⟨(C2_polling_budget (Except.ok "run_1") (fun _ => "running") []).1,
   (C2_polling_budget (Except.ok "run_1") (fun _ => "running") []).2.1
     "run_1" rfl (fun _ => rfl)⟩

/-- C3: with the status sequence `[running, running, completed]`, a
started run returns the text of the first result message after exactly
3 status checks, and returns nothing (still after 3 checks) when the
result list is empty. -/
theorem C3_completed_after_three (rid : String) (statusAt : Nat → String)
    (h0 : statusAt 0 = "running") (h1 : statusAt 1 = "running")
    (h2 : statusAt 2 = "completed") :
    (∀ t rest ms,
        run_assistant (Except.ok rid) statusAt
            ({ content := t :: rest } :: ms) = (some t, 3)) ∧
    run_assistant (Except.ok rid) statusAt [] = (none, 3) := by
  have key : ∀ ms', pollRun statusAt ms' 0 10 = (extractReply ms', 3) := by
    intro ms'
    have k2 : pollRun statusAt ms' 2 8 = (extractReply ms', 1) :=
      pollRun_step_completed statusAt ms' 2 7 h2
    have k1 : pollRun statusAt ms' 1 9 = (extractReply ms', 2) := by
      have h := pollRun_step_continue statusAt ms' 1 8 h1
      rw [k2] at h
      exact h
    have k0 : pollRun statusAt ms' 0 10 = (extractReply ms', 3) := by
      have h := pollRun_step_continue statusAt ms' 0 9 h0
      rw [k1] at h
      exact h
    exact k0
  constructor
  · intro t rest ms
    have h := key ({ content := t :: rest } :: ms)
    simpa [run_assistant, max_attempts, extractReply] using h
  · have h := key []
    simpa [run_assistant, max_attempts, extractReply] using h

/-- Witness for C3 at a concrete status sequence and result list. -/
theorem C3_completed_after_three_witness :
    run_assistant (Except.ok "run_1") c3Status
        [{ content := ["Hi there"] }] = (some "Hi there", 3) ∧
    run_assistant (Except.ok "run_1") c3Status [] = (none, 3) :=
  ⟨(C3_completed_after_three "run_1" c3Status (by decide) (by decide)
      (by decide)).1 "Hi there" [] [],
   (C3_completed_after_three "run_1" c3Status (by decide) (by decide)
      (by decide)).2⟩

/-- C4: the GET /webhook handshake answers 200 with the challenge as
body exactly when `hub.mode` is `subscribe` and `hub.verify_token`
equals the configured token; every mismatch (wrong or absent mode or
token) yields a 403, whatever the challenge is. -/
theorem C4_handshake (cfgToken : String) (mode token : Option String)
    (challenge : String) :
    (verify_webhook cfgToken mode token challenge = (challenge, 200) ↔
        (mode = some "subscribe" ∧ token = some cfgToken)) ∧
    (¬(mode = some "subscribe" ∧ token = some cfgToken) →
        verify_webhook cfgToken mode token challenge = ("Forbidden", 403)) := by
  refine ⟨⟨?_, ?_⟩, ?_⟩
  · intro h
    by_contra hc
    rw [verify_webhook, if_neg hc] at h
    exact absurd h (by simp)
  · intro h
    rw [verify_webhook, if_pos h]
  · intro h
    rw [verify_webhook, if_neg h]

/-- Witness for C4: the correct mode and token echo the challenge; a
wrong token is rejected with 403. -/
theorem C4_handshake_witness :
    verify_webhook "12345" (some "subscribe") (some "12345") "ch_1"
        = ("ch_1", 200) ∧
    verify_webhook "12345" (some "subscribe") (some "wrong") "ch_1"
        = ("Forbidden", 403) :=
  ⟨(C4_handshake "12345" (some "subscribe") (some "12345") "ch_1").1.mpr
      ⟨rfl, rfl⟩,
   (C4_handshake "12345" (some "subscribe") (some "wrong") "ch_1").2
      (by decide)⟩

/-- C5: every POST /webhook body is answered 200 `OK` — a body whose
read raised, a falsy body, and a payload whose `object` discriminator
is absent or wrong alike — and in all those rejected cases no message
is handed to `process_message` and the thread map is untouched. -/
theorem C5_webhook_always_ok (env : RemoteEnv) (threads : Threads)
    (data : Except Unit (Option WebhookPayload)) :
    (handle_webhook env threads data).response = ("OK", 200) ∧
    (∀ d, data = Except.ok (some d) →
        d.object ≠ some "whatsapp_business_account" →
        (handle_webhook env threads data).handed = [] ∧
        (handle_webhook env threads data).traces = [] ∧
        (handle_webhook env threads data).threadsAfter = threads) ∧
    (data = Except.error () →
        (handle_webhook env threads data).handed = [] ∧
        (handle_webhook env threads data).traces = []) ∧
    (data = Except.ok none →
        (handle_webhook env threads data).handed = [] ∧
        (handle_webhook env threads data).traces = []) := by
  refine ⟨?_, ?_, ?_, ?_⟩
  · cases data with
    | error e => rfl
    | ok o =>
      cases o with
      | none => rfl
      | some d =>
        unfold handle_webhook
        dsimp only
        split <;> rfl
  · intro d hd hobj
    subst hd
    unfold handle_webhook
    dsimp only
    rw [if_neg hobj]
    exact ⟨rfl, rfl, rfl⟩
  · intro hd
    subst hd
    exact ⟨rfl, rfl⟩
  · intro hd
    subst hd
    exact ⟨rfl, rfl⟩

/-- Witness for C5: a raising body read, and a payload with the wrong
`object` discriminator, are both answered 200 `OK` with no message
handed. -/
theorem C5_webhook_always_ok_witness :
    (handle_webhook wEnv [] (Except.error ())).response = ("OK", 200) ∧
    (handle_webhook wEnv []
        (Except.ok (some { object := some "instagram", entry := [] }))).handed
      = [] ∧
    (handle_webhook wEnv [] (Except.error ())).handed = [] :=
  ⟨(C5_webhook_always_ok wEnv [] (Except.error ())).1,
   ((C5_webhook_always_ok wEnv []
       (Except.ok (some { object := some "instagram", entry := [] }))).2.1
     { object := some "instagram", entry := [] } rfl (by decide)).1,
   ((C5_webhook_always_ok wEnv [] (Except.error ())).2.2.1 rfl).1⟩

/-- C6: when `user_id` is not yet mapped and the conversation-create
call fails, the exception propagates (`Except.error`), the map is
returned unchanged with the one failed create call counted, and a later
resolve for the same `user_id` issues a create call again. -/
theorem C6_create_failure (e : RemoteError) (threads : Threads)
    (u : String) (h : lookupThread threads u = none) :
    get_or_create_thread (Except.error e) threads u
        = (Except.error e, threads, 1) ∧
    (∀ c', (get_or_create_thread c' threads u).2.2 = 1) := by
  constructor
  · unfold get_or_create_thread
    rw [h]
  · intro c'
    unfold get_or_create_thread
    rw [h]
    cases c' <;> rfl

/-- Witness for C6: a failing create on an empty directory propagates
the error, stores nothing, and the retry issues a create again. -/
theorem C6_create_failure_witness :
    get_or_create_thread (Except.error ⟨"http 500"⟩) [] "user1"
        = (Except.error ⟨"http 500"⟩, [], 1) ∧
    (get_or_create_thread (Except.ok "th_2") [] "user1").2.2 = 1 :=
  ⟨(C6_create_failure ⟨"http 500"⟩ [] "user1" rfl).1,
   (C6_create_failure ⟨"http 500"⟩ [] "user1" rfl).2 (Except.ok "th_2")⟩

/-- C7: when `add_message_to_thread` reports failure, `process_message`
starts no job, issues no status check and sends no reply; and on a
message that reached the append (valid sender, successful resolve) the
one append call is all that happened. -/
theorem C7_append_failure (env : RemoteEnv) (threads : Threads)
    (m : WAMessage) (cs : List WAContact) (h : env.appendOk = false) :
    (process_message env threads m cs).runStarts = 0 ∧
    (process_message env threads m cs).statusChecks = 0 ∧
    (process_message env threads m cs).sendCalls = 0 ∧
    (∀ p tid, m.sender = some p → p ≠ "" →
        (get_or_create_thread env.create threads p).1 = Except.ok tid →
        (process_message env threads m cs).appendCalls = 1) := by
  have key : (process_message env threads m cs).runStarts = 0 ∧
      (process_message env threads m cs).statusChecks = 0 ∧
      (process_message env threads m cs).sendCalls = 0 := by
    unfold process_message
    dsimp only
    repeat' split
    all_goals exact ⟨rfl, rfl, rfl⟩
  refine ⟨key.1, key.2.1, key.2.2, ?_⟩
  intro p tid hp hpne hok
  simp only [process_message, hp, hok, if_neg hpne, if_pos h]

/-- Witness for C7 on a concrete message whose append fails. -/
theorem C7_append_failure_witness :
    (process_message wEnvNoAppend [] wMsg []).runStarts = 0 ∧
    (process_message wEnvNoAppend [] wMsg []).sendCalls = 0 ∧
    (process_message wEnvNoAppend [] wMsg []).appendCalls = 1 :=
  ⟨(C7_append_failure wEnvNoAppend [] wMsg [] rfl).1,
   (C7_append_failure wEnvNoAppend [] wMsg [] rfl).2.2.1,
   (C7_append_failure wEnvNoAppend [] wMsg [] rfl).2.2.2 "111" "th_1" rfl
     (by decide) rfl⟩

/-- C8: a message whose `from` field is absent is dropped on the spot:
no resolve, no create, no append, no job, no status check, no send, and
the thread map is untouched. -/
theorem C8_missing_sender (env : RemoteEnv) (threads : Threads)
    (m : WAMessage) (cs : List WAContact) (h : m.sender = none) :
    process_message env threads m cs =
      { contactName := none, resolveCalls := 0, createCalls := 0,
        appendCalls := 0, appendedText := none, runStarts := 0,
        statusChecks := 0, sendCalls := 0, sentReply := none,
        sendSucceeded := none, threadsAfter := threads } := by
  simp only [process_message, h]

/-- Witness for C8 on a concrete sender-less message. -/
theorem C8_missing_sender_witness :
    process_message wEnv []
        { sender := none, text := some { body := some "Hello" } } [] =
      { contactName := none, resolveCalls := 0, createCalls := 0,
        appendCalls := 0, appendedText := none, runStarts := 0,
        statusChecks := 0, sendCalls := 0, sentReply := none,
        sendSucceeded := none, threadsAfter := [] } :=
  C8_missing_sender wEnv []
    { sender := none, text := some { body := some "Hello" } } [] rfl

/-- C10: a message with a sender but no `text` field is not skipped:
the conversation is resolved, the empty string is appended as the
message body, and the whole call behaves exactly as it would on a
message carrying an explicit empty text body. -/
theorem C10_textless_message (env : RemoteEnv) (threads : Threads)
    (p : String) (cs : List WAContact) (hp : p ≠ "") :
    (process_message env threads { sender := some p, text := none }
        cs).resolveCalls = 1 ∧
    (∀ tid, (get_or_create_thread env.create threads p).1 = Except.ok tid →
        (process_message env threads { sender := some p, text := none }
            cs).appendCalls = 1 ∧
        (process_message env threads { sender := some p, text := none }
            cs).appendedText = some "") ∧
    process_message env threads { sender := some p, text := none } cs
      = process_message env threads
          { sender := some p, text := some { body := some "" } } cs := by
  refine ⟨?_, ?_, ?_⟩
  · unfold process_message
    dsimp only
    rw [if_neg hp]
    repeat' split
    all_goals rfl
  · intro tid hok
    simp only [process_message, hok, if_neg hp]
    split
    · exact ⟨rfl, rfl⟩
    · split
      · exact ⟨rfl, rfl⟩
      · exact ⟨rfl, rfl⟩
  · rfl

/-- Witness for C10 on a concrete media (text-less) message. -/
theorem C10_textless_message_witness :
    (process_message wEnv [] { sender := some "111", text := none }
        []).resolveCalls = 1 ∧
    (process_message wEnv [] { sender := some "111", text := none }
        []).appendedText = some "" :=
  ⟨(C10_textless_message wEnv [] "111" [] (by decide)).1,
   ((C10_textless_message wEnv [] "111" [] (by decide)).2.1 "th_1" rfl).2⟩

/-- C9: on an accepted delivery notification, the webhook handler walks
every nested entry and every change with field `messages`, skips
status-update changes, and hands each message of the remaining changes
individually to `process_message`, in order — exactly the spec-side
`handedMessages` description — while answering 200 `OK`. -/
theorem C9_walks_entries (env : RemoteEnv) (threads : Threads)
    (d : WebhookPayload)
    (h : d.object = some "whatsapp_business_account") :
    (handle_webhook env threads (Except.ok (some d))).handed
        = handedMessages d ∧
    (handle_webhook env threads (Except.ok (some d))).response
        = ("OK", 200) := by
  constructor
  · unfold handle_webhook
    dsimp only
    rw [if_pos h]
    exact processEntries_handed env threads d.entry
  · unfold handle_webhook
    dsimp only
    rw [if_pos h]

/-- Witness for C9 on a payload with a two-message change, a
status-update change, a non-message change and a second entry: the
handler hands exactly the three ordinary messages, in order. -/
theorem C9_walks_entries_witness :
    (handle_webhook wEnv [] (Except.ok (some wPayload))).handed
        = handedMessages wPayload ∧
    handedMessages wPayload
        = [(wMsg, [wContact]), (wMsg2, [wContact]), (wMsg2, [])] :=
  ⟨(C9_walks_entries wEnv [] wPayload rfl).1, rfl⟩

end WhatsAppBot
